import Mathlib

/-!
Verification development for the voice-assistant command dispatcher
(`_voice_assistant.py`).  The dispatcher, the persistent custom-command
store and the reminder scheduler are embedded shallowly: Python strings
become `String`, the JSON-backed mapping becomes an association list with
Python-dict insertion semantics, the recognizer and keyboard are queues of
pending inputs inside an explicit state, and each observable side effect
(speaking, exiting, calling a service) is recorded in a trace.
-/

namespace VoiceAssistant

/-! ### Python string primitives, modelled on `List Char` -/

/-- Python `str.isspace` characters relevant to `str.strip()`:
space, tab, newline, carriage return, vertical tab, form feed. -/
def pyIsSpace (c : Char) : Bool :=
  c == ' ' || c == '\t' || c == '\n' || c == '\r' || c == '\x0b' || c == '\x0c'

/-- ASCII model of Python `str.lower` on a single character. -/
def pyCharLower (c : Char) : Char :=
  match c with
  | 'A' => 'a' | 'B' => 'b' | 'C' => 'c' | 'D' => 'd' | 'E' => 'e' | 'F' => 'f'
  | 'G' => 'g' | 'H' => 'h' | 'I' => 'i' | 'J' => 'j' | 'K' => 'k' | 'L' => 'l'
  | 'M' => 'm' | 'N' => 'n' | 'O' => 'o' | 'P' => 'p' | 'Q' => 'q' | 'R' => 'r'
  | 'S' => 's' | 'T' => 't' | 'U' => 'u' | 'V' => 'v' | 'W' => 'w' | 'X' => 'x'
  | 'Y' => 'y' | 'Z' => 'z'
  | other => other

/-- `str.strip()` on the character list: drop whitespace from both ends. -/
def stripL (l : List Char) : List Char :=
  ((l.dropWhile pyIsSpace).reverse.dropWhile pyIsSpace).reverse

/-- Python `s.strip()`. -/
def pyStrip (s : String) : String := String.mk (stripL s.data)

/-- Python `s.lower()` (ASCII model). -/
def pyLower (s : String) : String := String.mk (s.data.map pyCharLower)

/-- The normalization every listened / typed utterance undergoes in the
source: `.strip().lower()`. -/
def pyNormalize (s : String) : String := pyLower (pyStrip s)

/-- `needle` is a prefix of `hay` (Python `str.startswith`). -/
def isPrefixL : List Char → List Char → Bool
  | [], _ => true
  | _ :: _, [] => false
  | a :: as, b :: bs => a == b && isPrefixL as bs

/-- Split `hay` at the first occurrence of `needle`, returning the parts
before and after it; `none` when `needle` does not occur.  This is the
engine behind Python `needle in hay` and `hay.split(needle, 1)`. -/
def splitFirst : List Char → List Char → Option (List Char × List Char)
  | [], _ => none
  | c :: t, needle =>
    if isPrefixL needle (c :: t) then some ([], (c :: t).drop needle.length)
    else match splitFirst t needle with
      | some (pre, post) => some (c :: pre, post)
      | none => none

/-- Python `needle in hay` for non-empty `needle`. -/
def strContains (hay needle : String) : Bool :=
  (splitFirst hay.data needle.data).isSome

/-- Python `s.replace(old, new, 1)`. -/
def pyReplaceFirst (s old new : String) : String :=
  match splitFirst s.data old.data with
  | some (pre, post) => String.mk (pre ++ new.data ++ post)
  | none => s

/-- The digit characters of `s`, in order
(`[ch for ch in s if ch.isdigit()]`, ASCII digits). -/
def extractDigits (s : String) : List Char :=
  s.data.filter Char.isDigit

/-- Python `int` applied to a non-empty string of digits: left fold in
base 10. -/
def digitsToNat (ds : List Char) : Nat :=
  ds.foldl (fun a c => a * 10 + (c.toNat - 48)) 0

/-- `int(''.join(ch for ch in s if ch.isdigit()))`, which raises (here:
`none`) exactly when no digit character occurs. -/
def pyParseMinutes (s : String) : Option Nat :=
  let ds := extractDigits s
  if ds.isEmpty then none else some (digitsToNat ds)

/-! ### The persistent custom-command store -/

/-- Python-dict insertion on an association list: an existing key keeps its
position and gets the new value, a new key is appended
(`custom_commands[trigger] = response`). -/
def dictInsert : List (String × String) → String → String → List (String × String)
  | [], k, v => [(k, v)]
  | (k0, v0) :: rest, k, v =>
    if k0 == k then (k0, v) :: rest else (k0, v0) :: dictInsert rest k v

/-- `save_custom_commands`: `json.dump(custom_commands, f)`.  The file
content is modelled abstractly as the parsed mapping (JSON round-trips
string-to-string objects); `none` stands for an absent or unparsable
file. -/
def save_custom_commands (m : List (String × String)) :
    Option (List (String × String)) := some m

/-- The startup load of `custom_commands.json`: a present, parsable file
yields its mapping verbatim; an absent or corrupt file yields the empty
mapping (the `except`/`else` arms both set `custom_commands = {}`). -/
def loadCustomCommands : Option (List (String × String)) → List (String × String)
  | some m => m
  | none => []

/-- The upsert the add-command intent performs on the in-memory mapping
(line `custom_commands[trigger] = response`). -/
def upsert (m : List (String × String)) (t r : String) : List (String × String) :=
  dictInsert m t r

/-- A key that is non-empty, trimmed and lowercase. -/
def normalizedKey (k : String) : Bool :=
  (!(k == "")) && (pyStrip k == k) && (pyLower k == k)

/-- The store invariant the spec asserts: every key normalized. -/
def storeInv (m : List (String × String)) : Bool :=
  m.all (fun p => normalizedKey p.1)

/-! ### Dispatcher state and observable effects -/

/-- Observable effects of one dispatch step.  Speaking the current time or
date is abstracted (`toldTime`/`toldDate`) because the spoken string
depends on the wall clock; calling a service adapter records exactly the
arguments handed to it. -/
inductive Effect where
  | spoke (msg : String)
  | exited
  | toldTime
  | toldDate
  | weatherLookup (city : String)
  | emailSend (recipient subject body : String)
  | reminderScheduled (text : String) (minutes : Nat)
  | wikipediaLookup (q : String)
  deriving Repr, DecidableEq

/-- Dispatcher state: the in-memory mapping, the persisted file content,
and the queues of upcoming voice (`listen_vosk`) and keyboard (`input`)
results, given as raw text before normalization. -/
structure AsstState where
  customCommands : List (String × String)
  savedFile : Option (List (String × String))
  listens : List String
  typed : List String
  deriving Repr, DecidableEq

/-- `listen_vosk()`: returns the next recognized (or typed-fallback)
utterance, which the source always passes through `.strip().lower()`;
an exhausted queue stands for hearing nothing (empty text). -/
def listen_vosk : List String → String × List String
  | [] => ("", [])
  | r :: rest => (pyNormalize r, rest)

/-- `input(...).strip()` for the email-recipient prompt (stripped but not
lowercased in the source). -/
def takeTyped : List String → String × List String
  | [] => ("", [])
  | r :: rest => (pyStrip r, rest)

def DEFAULT_CITY : String := "Chennai"

def EXIT_WORDS : List String := ["exit", "quit", "stop", "bye"]

def GREETINGS : List String := ["hello", "hi", "hey"]

/-- `time.sleep(max(0, minutes) * 60)` in `set_reminder`'s worker: the
delay in seconds used for a reminder of `minutes` minutes. -/
def set_reminder_delay (minutes : Int) : Int := max 0 minutes * 60

/-! ### The intent branches of `process_command` -/

/-- The `"weather"` branch: city from the text after the first `" in "`
(`command.split(" in ", 1)[1].strip()`) when present, otherwise a
secondary listen with `DEFAULT_CITY` as fallback; then `get_weather(city)`. -/
def weatherBranch (command : String) (st : AsstState) : List Effect × AsstState :=
  match splitFirst command.data (" in ".data) with
  | some p => ([Effect.weatherLookup (pyStrip (String.mk p.2))], st)
  | none =>
    let r := listen_vosk st.listens
    let city := if r.1 = "" then DEFAULT_CITY else r.1
    ([Effect.spoke "Which city do you want the weather for?",
      Effect.weatherLookup city],
     { st with listens := r.2 })

/-- The `"email"` branch: typed recipient, listened subject and body, then
`send_email`. -/
def emailBranch (st : AsstState) : List Effect × AsstState :=
  let t := takeTyped st.typed
  let s := listen_vosk st.listens
  let m := listen_vosk s.2
  ([Effect.spoke "Who is the recipient? Please type recipient email address:",
    Effect.spoke "What is the subject?",
    Effect.spoke "What should I say in the email?",
    Effect.emailSend t.1 s.1 m.1],
   { st with typed := t.2, listens := m.2 })

/-- The `"remind me"` branch: listen for the text, listen for the minutes,
parse the minutes by digit extraction; on success call `set_reminder`,
otherwise apologize and schedule nothing. -/
def reminderBranch (st : AsstState) : List Effect × AsstState :=
  let t := listen_vosk st.listens
  let m := listen_vosk t.2
  match pyParseMinutes m.1 with
  | some minutes =>
      ([Effect.spoke "What should I remind you about?",
        Effect.spoke "In how many minutes should I remind you?",
        Effect.reminderScheduled t.1 minutes,
        Effect.spoke ("Reminder set for " ++ toString minutes ++ " minutes from now.")],
       { st with listens := m.2 })
  | none =>
      ([Effect.spoke "What should I remind you about?",
        Effect.spoke "In how many minutes should I remind you?",
        Effect.spoke "I couldn\x27t understand the time. Reminder not set."],
       { st with listens := m.2 })

/-- The prefix strip of the encyclopedia branch: for the first matching
head among `who is`, `what is`, `tell me about`, do
`q.replace(head, "", 1).strip()` and stop. -/
def stripWikiHead (command : String) : String :=
  if isPrefixL ("who is".data) command.data then
    pyStrip (pyReplaceFirst command "who is" "")
  else if isPrefixL ("what is".data) command.data then
    pyStrip (pyReplaceFirst command "what is" "")
  else if isPrefixL ("tell me about".data) command.data then
    pyStrip (pyReplaceFirst command "tell me about" "")
  else command

/-- The encyclopedia branch: strip the matched head once; non-empty
remainder is the query, otherwise ask for one via a secondary listen. -/
def wikiBranch (command : String) (st : AsstState) : List Effect × AsstState :=
  let q := stripWikiHead command
  if q = "" then
    let r := listen_vosk st.listens
    if r.1 = "" then
      ([Effect.spoke "What would you like to know about?"], { st with listens := r.2 })
    else
      ([Effect.spoke "What would you like to know about?",
        Effect.wikipediaLookup r.1], { st with listens := r.2 })
  else ([Effect.wikipediaLookup q], st)

/-- The add-command branch: listen for trigger and response; an empty
listen at either step cancels without touching the store; otherwise the
pair is upserted, saved, and confirmed. -/
def addCommandBranch (st : AsstState) : List Effect × AsstState :=
  let t := listen_vosk st.listens
  if t.1 = "" then
    ([Effect.spoke "What phrase should trigger the command?",
      Effect.spoke "No trigger received. Cancelled."],
     { st with listens := t.2 })
  else
    let r := listen_vosk t.2
    if r.1 = "" then
      ([Effect.spoke "What phrase should trigger the command?",
        Effect.spoke "What should I respond when you say that?",
        Effect.spoke "No response provided. Cancelled."],
       { st with listens := r.2 })
    else
      let newCmds := dictInsert st.customCommands t.1 r.1
      ([Effect.spoke "What phrase should trigger the command?",
        Effect.spoke "What should I respond when you say that?",
        Effect.spoke ("Custom command added for trigger: " ++ t.1)],
       { st with listens := r.2, customCommands := newCmds,
                 savedFile := some newCmds })

/-- `process_command`: the keyword dispatcher, with the source's rule
order: empty no-op, exit substrings, exact custom-command key, greeting,
time, date, weather, email, reminder, encyclopedia prefixes, add-command,
help, fallback. -/
def process_command (command : String) (st : AsstState) : List Effect × AsstState :=
  if command = "" then ([], st)
  else if EXIT_WORDS.any (fun w => strContains command w) then
    ([Effect.spoke "Goodbye. Exiting now.", Effect.exited], st)
  else match List.lookup command st.customCommands with
  | some resp => ([Effect.spoke resp], st)
  | none =>
    if GREETINGS.any (fun g => strContains command g) then
      ([Effect.spoke "Hello! How can I help you?"], st)
    else if strContains command "time" then ([Effect.toldTime], st)
    else if strContains command "date" then ([Effect.toldDate], st)
    else if strContains command "weather" then weatherBranch command st
    else if strContains command "send email" || strContains command "email" then
      emailBranch st
    else if strContains command "remind me" || strContains command "set reminder" then
      reminderBranch st
    else if isPrefixL ("who is".data) command.data
         || isPrefixL ("what is".data) command.data
         || isPrefixL ("tell me about".data) command.data then
      wikiBranch command st
    else if strContains command "add command" || strContains command "create command" then
      addCommandBranch st
    else if strContains command "help" || strContains command "commands" then
      ([Effect.spoke "You can ask time, date, weather, set reminders, send email, ask Wikipedia, or add custom commands."], st)
    else
      ([Effect.spoke "Sorry, I didn\x27t understand that. You can say help to get a list of commands."], st)

/-! ### Normalization lemmas: `.strip().lower()` output is trimmed and lowercase -/

lemma pyCharLower_fix (c : Char) : pyCharLower (pyCharLower c) = pyCharLower c := by
  generalize hd : pyCharLower c = d
  unfold pyCharLower at hd
  split at hd <;> subst hd <;> first | decide | (unfold pyCharLower; split <;> simp_all)

lemma pyIsSpace_pyCharLower (c : Char) : pyIsSpace (pyCharLower c) = pyIsSpace c := by
  unfold pyCharLower
  split <;> first | decide | rfl

lemma dropWhile_map_lower (l : List Char) :
    (l.map pyCharLower).dropWhile pyIsSpace = (l.dropWhile pyIsSpace).map pyCharLower := by
  induction l with
  | nil => rfl
  | cons c t ih =>
      simp only [List.map_cons, List.dropWhile_cons, pyIsSpace_pyCharLower]
      by_cases h : pyIsSpace c = true
      · simp [h, ih]
      · simp [h]

lemma dropWhile_dropWhile (p : Char → Bool) (l : List Char) :
    (l.dropWhile p).dropWhile p = l.dropWhile p := by
  induction l with
  | nil => rfl
  | cons c t ih =>
      by_cases h : p c = true
      · simp [List.dropWhile_cons, h, ih]
      · simp [List.dropWhile_cons, h]

lemma head_dropWhile_false (p : Char → Bool) (l : List Char) (c : Char) (t : List Char)
    (h : l.dropWhile p = c :: t) : p c = false := by
  induction l with
  | nil => simp [List.dropWhile] at h
  | cons a s ih =>
      by_cases ha : p a = true
      · rw [List.dropWhile_cons, if_pos ha] at h
        exact ih h
      · rw [List.dropWhile_cons, if_neg ha] at h
        cases h
        simpa using ha

lemma stripL_map_lower (l : List Char) :
    stripL (l.map pyCharLower) = (stripL l).map pyCharLower := by
  unfold stripL
  rw [dropWhile_map_lower, ← List.map_reverse, dropWhile_map_lower, ← List.map_reverse]

lemma stripL_idem (l : List Char) : stripL (stripL l) = stripL l := by
  unfold stripL
  set a := l.dropWhile pyIsSpace with ha
  set b := a.reverse.dropWhile pyIsSpace with hb
  cases hbr : b.reverse with
  | nil => rfl
  | cons c0 t0 =>
      have hsplit : a.reverse = a.reverse.takeWhile pyIsSpace ++ b := by
        rw [hb]; exact (List.takeWhile_append_dropWhile pyIsSpace a.reverse).symm
      have ha2 : a = b.reverse ++ (a.reverse.takeWhile pyIsSpace).reverse := by
        have h0 := congrArg List.reverse hsplit
        simpa [List.reverse_append] using h0
      have hac : ∃ rest, a = c0 :: rest := by
        refine ⟨t0 ++ (a.reverse.takeWhile pyIsSpace).reverse, ?_⟩
        conv_lhs => rw [ha2, hbr]
        rfl
      obtain ⟨rest, hac⟩ := hac
      have hc0 : pyIsSpace c0 = false := by
        refine head_dropWhile_false pyIsSpace l c0 rest ?_
        rw [← ha, hac]
      have h2 : b.dropWhile pyIsSpace = b := by
        rw [hb]; exact dropWhile_dropWhile _ _
      have hstep1 : List.dropWhile pyIsSpace (c0 :: t0) = c0 :: t0 := by
        rw [List.dropWhile_cons, if_neg (by simp [hc0])]
      rw [hstep1, ← hbr, List.reverse_reverse, h2]

lemma pyLower_pyLower (s : String) : pyLower (pyLower s) = pyLower s := by
  unfold pyLower
  congr 1
  show (s.data.map pyCharLower).map pyCharLower = s.data.map pyCharLower
  rw [List.map_map]
  exact List.map_congr_left (fun a _ => pyCharLower_fix a)

lemma pyStrip_pyLower (s : String) : pyStrip (pyLower s) = pyLower (pyStrip s) := by
  unfold pyStrip pyLower
  congr 1
  exact stripL_map_lower s.data

lemma pyStrip_pyStrip (s : String) : pyStrip (pyStrip s) = pyStrip s := by
  unfold pyStrip
  congr 1
  exact stripL_idem s.data

lemma normalizedKey_pyNormalize (s : String) (h : pyNormalize s ≠ "") :
    normalizedKey (pyNormalize s) = true := by
  have h1 : pyStrip (pyNormalize s) = pyNormalize s := by
    unfold pyNormalize
    rw [pyStrip_pyLower, pyStrip_pyStrip]
  have h2 : pyLower (pyNormalize s) = pyNormalize s := by
    unfold pyNormalize
    rw [pyLower_pyLower]
  simp [normalizedKey, h, h1, h2]

lemma normalizedKey_listen (ls : List String) (h : (listen_vosk ls).1 ≠ "") :
    normalizedKey (listen_vosk ls).1 = true := by
  cases ls with
  | nil => simp [listen_vosk] at h
  | cons r rest => exact normalizedKey_pyNormalize r h

/-! ### Store lemmas -/

lemma lookup_dictInsert (m : List (String × String)) (t r : String) :
    List.lookup t (dictInsert m t r) = some r := by
  induction m with
  | nil => simp [dictInsert, List.lookup]
  | cons p rest ih =>
      obtain ⟨k0, v0⟩ := p
      by_cases h : (k0 == t) = true
      · have ht : (t == k0) = true := by simpa using (eq_of_beq h).symm
        simp [dictInsert, h, List.lookup, ht]
      · have hne : k0 ≠ t := by simpa using h
        have ht : (t == k0) = false := beq_eq_false_iff_ne.mpr (fun e => hne e.symm)
        simp only [dictInsert, if_neg h, List.lookup, ht]
        exact ih

lemma storeInv_dictInsert (m : List (String × String)) (k v : String)
    (hm : storeInv m = true) (hk : normalizedKey k = true) :
    storeInv (dictInsert m k v) = true := by
  induction m with
  | nil => simp [dictInsert, storeInv, hk]
  | cons p rest ih =>
      obtain ⟨k0, v0⟩ := p
      simp only [storeInv, List.all_cons, Bool.and_eq_true] at hm
      by_cases h : (k0 == k) = true
      · simp only [dictInsert, if_pos h, storeInv, List.all_cons, Bool.and_eq_true]
        exact ⟨hm.1, hm.2⟩
      · simp only [dictInsert, if_neg h, storeInv, List.all_cons, Bool.and_eq_true]
        exact ⟨hm.1, ih hm.2⟩

lemma weatherBranch_customCommands (c : String) (st : AsstState) :
    (weatherBranch c st).2.customCommands = st.customCommands := by
  unfold weatherBranch
  split <;> rfl

lemma emailBranch_customCommands (st : AsstState) :
    (emailBranch st).2.customCommands = st.customCommands := rfl

lemma reminderBranch_customCommands (st : AsstState) :
    (reminderBranch st).2.customCommands = st.customCommands := by
  unfold reminderBranch
  dsimp only []
  split <;> rfl

lemma wikiBranch_customCommands (c : String) (st : AsstState) :
    (wikiBranch c st).2.customCommands = st.customCommands := by
  unfold wikiBranch
  dsimp only []
  split_ifs <;> rfl

lemma addCommandBranch_storeInv (st : AsstState) (h : storeInv st.customCommands = true) :
    storeInv (addCommandBranch st).2.customCommands = true := by
  unfold addCommandBranch
  dsimp only []
  split_ifs with h1 h2
  · simpa using h
  · simpa using h
  · exact storeInv_dictInsert _ _ _ h (normalizedKey_listen _ h1)

lemma bfalse {b : Bool} (h : ¬ (b = true)) : b = false := by simpa using h

lemma storeInv_process (u : String) (st : AsstState) (h : storeInv st.customCommands = true) :
    storeInv (process_command u st).2.customCommands = true := by
  by_cases h0 : u = ""
  · subst h0; exact h
  by_cases h1 : EXIT_WORDS.any (fun w => strContains u w) = true
  · simp only [process_command, h0, h1, if_false, if_true, ite_false, ite_true,
      Bool.false_eq_true]
    exact h
  replace h1 := bfalse h1
  cases hl : List.lookup u st.customCommands with
  | some r =>
      simp only [process_command, h0, h1, hl, if_false, if_true, ite_false, ite_true,
        Bool.false_eq_true]
      exact h
  | none =>
  by_cases h2 : GREETINGS.any (fun g => strContains u g) = true
  · simp only [process_command, h0, h1, hl, h2, if_false, if_true, ite_false, ite_true,
      Bool.false_eq_true]
    exact h
  replace h2 := bfalse h2
  by_cases h3 : strContains u "time" = true
  · simp only [process_command, h0, h1, hl, h2, h3, if_false, if_true, ite_false, ite_true,
      Bool.false_eq_true]
    exact h
  replace h3 := bfalse h3
  by_cases h4 : strContains u "date" = true
  · simp only [process_command, h0, h1, hl, h2, h3, h4, if_false, if_true, ite_false, ite_true,
      Bool.false_eq_true]
    exact h
  replace h4 := bfalse h4
  by_cases h5 : strContains u "weather" = true
  · simp only [process_command, h0, h1, hl, h2, h3, h4, h5, if_false, if_true, ite_false,
      ite_true, Bool.false_eq_true]
    rw [weatherBranch_customCommands]
    exact h
  replace h5 := bfalse h5
  by_cases h6 : (strContains u "send email" || strContains u "email") = true
  · simp only [process_command, h0, h1, hl, h2, h3, h4, h5, h6, if_false, if_true, ite_false,
      ite_true, Bool.false_eq_true]
    exact h
  replace h6 := bfalse h6
  by_cases h7 : (strContains u "remind me" || strContains u "set reminder") = true
  · simp only [process_command, h0, h1, hl, h2, h3, h4, h5, h6, h7, if_false, if_true,
      ite_false, ite_true, Bool.false_eq_true]
    rw [reminderBranch_customCommands]
    exact h
  replace h7 := bfalse h7
  by_cases h8 : (isPrefixL ("who is".data) u.data || isPrefixL ("what is".data) u.data
      || isPrefixL ("tell me about".data) u.data) = true
  · simp only [process_command, h0, h1, hl, h2, h3, h4, h5, h6, h7, h8, if_false, if_true,
      ite_false, ite_true, Bool.false_eq_true]
    rw [wikiBranch_customCommands]
    exact h
  replace h8 := bfalse h8
  by_cases h9 : (strContains u "add command" || strContains u "create command") = true
  · simp only [process_command, h0, h1, hl, h2, h3, h4, h5, h6, h7, h8, h9, if_false, if_true,
      ite_false, ite_true, Bool.false_eq_true]
    exact addCommandBranch_storeInv st h
  replace h9 := bfalse h9
  by_cases h10 : (strContains u "help" || strContains u "commands") = true
  · simp only [process_command, h0, h1, hl, h2, h3, h4, h5, h6, h7, h8, h9, h10, if_false,
      if_true, ite_false, ite_true, Bool.false_eq_true]
    exact h
  replace h10 := bfalse h10
  simp only [process_command, h0, h1, hl, h2, h3, h4, h5, h6, h7, h8, h9, h10, if_false,
    if_true, ite_false, ite_true, Bool.false_eq_true]
  exact h

/-! ### The claims -/

/-- A dispatcher state with an empty store and no pending inputs. -/
def emptySt : AsstState :=
  { customCommands := [], savedFile := none, listens := [], typed := [] }

/-- A state whose store maps the empty trigger, as a hand-written
`custom_commands.json` can. -/
def emptyTriggerSt : AsstState :=
  { customCommands := [("", "ok")], savedFile := some [("", "ok")], listens := [], typed := [] }

/-- A state registering a single ordinary custom trigger. -/
def magicSt : AsstState :=
  { customCommands := [("abracadabra", "magic")], savedFile := some [("abracadabra", "magic")],
    listens := [], typed := [] }

/-- Claim C1, counterexample: the empty utterance contains no exit substring
and can be a registered trigger (a hand-written commands file may map the
empty string), yet dispatching it speaks nothing, because the dispatcher
returns on empty input before the custom-command lookup. -/
theorem customTriggerPriority_cex :
    List.lookup "" emptyTriggerSt.customCommands = some "ok"
  ∧ EXIT_WORDS.any (fun w => strContains "" w) = false
  ∧ (process_command "" emptyTriggerSt).1 = []
  ∧ (process_command "" emptyTriggerSt).1 ≠ [Effect.spoke "ok"] := by decide

/-- Claim C1 (amended with non-emptiness): every non-empty utterance that
contains no exit substring and is exactly a registered trigger is answered
with exactly the stored response, with no built-in rule evaluated and the
state untouched. -/
theorem customTriggerPriority (st : AsstState) (u r : String)
    (hne : u ≠ "")
    (hexit : EXIT_WORDS.any (fun w => strContains u w) = false)
    (hcust : List.lookup u st.customCommands = some r) :
    process_command u st = ([Effect.spoke r], st) := by
  simp only [process_command, hne, hexit, hcust, if_false, if_true, ite_false, ite_true,
    Bool.false_eq_true]

/-- Claim C1, witness at a concrete registered trigger. -/
theorem customTriggerPriority_witness :
    process_command "abracadabra" magicSt = ([Effect.spoke "magic"], magicSt) :=
  customTriggerPriority magicSt "abracadabra" "magic" (by decide) (by decide) (by decide)

/-- Claim C2: rules are applied in the listed priority order, first match
wins: an utterance containing both `hello` and `time` (and matching no
higher-priority rule) resolves to the greeting; an utterance containing
`bye` always resolves to the exit rule. -/
theorem rulePriorityOrder :
    (∀ (st : AsstState) (u : String),
        EXIT_WORDS.any (fun w => strContains u w) = false →
        List.lookup u st.customCommands = none →
        strContains u "hello" = true →
        strContains u "time" = true →
        (process_command u st).1 = [Effect.spoke "Hello! How can I help you?"])
  ∧ (∀ (st : AsstState) (u : String),
        strContains u "bye" = true →
        (process_command u st).1 = [Effect.spoke "Goodbye. Exiting now.", Effect.exited]) := by
  constructor
  · intro st u hexit hcust hhello htime
    have hne : u ≠ "" := by
      intro h0; rw [h0] at hhello; exact absurd hhello (by decide)
    have hg : GREETINGS.any (fun g => strContains u g) = true := by
      simp [GREETINGS, List.any_cons, List.any_nil, hhello]
    simp only [process_command, hne, hexit, hcust, hg, if_false, if_true, ite_false, ite_true,
      Bool.false_eq_true]
  · intro st u hbye
    have hne : u ≠ "" := by
      intro h0; rw [h0] at hbye; exact absurd hbye (by decide)
    have he : EXIT_WORDS.any (fun w => strContains u w) = true := by
      simp [EXIT_WORDS, List.any_cons, List.any_nil, hbye]
    simp only [process_command, hne, he, if_false, if_true, ite_false, ite_true,
      Bool.false_eq_true]

/-- Claim C2, witness on the spec's two overlap scenarios. -/
theorem rulePriorityOrder_witness :
    (process_command "hello time" emptySt).1 = [Effect.spoke "Hello! How can I help you?"]
  ∧ (process_command "bye hello" emptySt).1 =
      [Effect.spoke "Goodbye. Exiting now.", Effect.exited] :=
  ⟨rulePriorityOrder.1 emptySt "hello time" (by decide) (by decide) (by decide) (by decide),
   rulePriorityOrder.2 emptySt "bye hello" (by decide)⟩

/-- Claim C3, counterexample: a successful load adopts the file's keys
verbatim, so a file with an untrimmed, uppercase key yields an in-memory
mapping violating the normalized-key invariant. -/
theorem storeKeyNormalization_cex :
    loadCustomCommands (some [("HELLO ", "hi there")]) = [("HELLO ", "hi there")]
  ∧ storeInv [("HELLO ", "hi there")] = false := by decide

/-- Claim C3 (amended): every dispatch step (in particular every
add-command upsert) preserves the normalized-key invariant, and loading an
absent or corrupt file yields the empty mapping, which satisfies it; a
successful load returns the file verbatim, so the invariant holds after
load only when the file's keys already satisfy it. -/
theorem storeKeyNormalization :
    (∀ (u : String) (st : AsstState), storeInv st.customCommands = true →
        storeInv (process_command u st).2.customCommands = true)
  ∧ storeInv (loadCustomCommands none) = true
  ∧ (∀ m : List (String × String), storeInv m = true →
        storeInv (loadCustomCommands (some m)) = true) :=
  ⟨fun u st h => storeInv_process u st h, by decide, fun _ h => h⟩

/-- A state about to add a command whose raw trigger needs trimming and
lowercasing. -/
def addOkSt : AsstState :=
  { customCommands := [], savedFile := none,
    listens := ["Good Morning ", "hello friend"], typed := [] }

/-- Claim C3, witness: the invariant survives an add-command upsert of a
raw mixed-case trigger, and holds for a well-formed loaded file. -/
theorem storeKeyNormalization_witness :
    storeInv (process_command "add command" addOkSt).2.customCommands = true
  ∧ storeInv (loadCustomCommands (some [("greet", "hi")])) = true :=
  ⟨storeKeyNormalization.1 "add command" addOkSt (by decide),
   storeKeyNormalization.2.2 [("greet", "hi")] (by decide)⟩

/-- A reminder interaction whose minutes reply spells the number in words. -/
def reminderWordsSt : AsstState :=
  { customCommands := [], savedFile := none,
    listens := ["water the plants", "uh twenty"], typed := [] }

/-- A reminder interaction whose minutes reply carries the digits. -/
def reminderDigitsSt : AsstState :=
  { customCommands := [], savedFile := none,
    listens := ["water the plants", "uh 20"], typed := [] }

/-- Claim C5, counterexample: the text `uh twenty` has no digit character,
so minutes extraction fails on it — it does not yield 20, and the dispatch
ends with the cancellation message instead of scheduling a reminder. -/
theorem reminderTwentyWords_cex :
    pyParseMinutes "uh twenty" ≠ some 20
  ∧ extractDigits "uh twenty" = []
  ∧ (process_command "remind me" reminderWordsSt).1 =
      [Effect.spoke "What should I remind you about?",
       Effect.spoke "In how many minutes should I remind you?",
       Effect.spoke "I couldn\x27t understand the time. Reminder not set."] := by decide

/-- Claim C5 (amended): extraction yields 20 for a reply whose digits read
20 (`uh 20`), scheduling a 20-minute reminder; the all-words reply
`uh twenty` contains no digits and parses to nothing. -/
theorem reminderTwentyDigits :
    pyParseMinutes "uh 20" = some 20
  ∧ (process_command "remind me" reminderDigitsSt).1 =
      [Effect.spoke "What should I remind you about?",
       Effect.spoke "In how many minutes should I remind you?",
       Effect.reminderScheduled "water the plants" 20,
       Effect.spoke "Reminder set for 20 minutes from now."]
  ∧ pyParseMinutes "uh twenty" = none := by decide

/-- Claim C6: the reminder delay is the clamped `max(0, minutes) * 60`
seconds — never negative, and `-5` minutes gives a zero delay. -/
theorem reminderDelayClamped (m : Int) :
    0 ≤ set_reminder_delay m ∧ set_reminder_delay m = max 0 m * 60
  ∧ set_reminder_delay (-5) = 0 := by
  refine ⟨?_, rfl, by decide⟩
  exact mul_nonneg (le_max_left 0 m) (by norm_num)

/-- Claim C8: upserting a pair and saving, then loading the saved file,
yields a mapping containing the pair. -/
theorem upsertLoadRoundTrip (m : List (String × String)) (t r : String)
    (ht : t ≠ "") (hr : r ≠ "") :
    List.lookup t (loadCustomCommands (save_custom_commands (upsert m t r))) = some r := by
  simpa [loadCustomCommands, save_custom_commands, upsert] using lookup_dictInsert m t r

/-- Claim C8, witness on a concrete non-empty pair over a non-empty store. -/
theorem upsertLoadRoundTrip_witness :
    List.lookup "good morning"
        (loadCustomCommands (save_custom_commands (upsert [("x", "y")] "good morning" "hello friend")))
      = some "hello friend" :=
  upsertLoadRoundTrip [("x", "y")] "good morning" "hello friend" (by decide) (by decide)

lemma foldl_digits_ofDigits (ds : List Char) (a : Nat) :
    ds.foldl (fun x c => x * 10 + (c.toNat - 48)) a
      = a * 10 ^ ds.length + Nat.ofDigits 10 ((ds.map (fun c => c.toNat - 48)).reverse) := by
  induction ds generalizing a with
  | nil => simp [Nat.ofDigits_nil]
  | cons c t ih =>
      simp only [List.foldl_cons, List.map_cons, List.reverse_cons, List.length_cons]
      rw [ih, Nat.ofDigits_append]
      simp only [List.length_reverse, List.length_map, Nat.ofDigits_singleton]
      rw [pow_succ]
      ring

/-- Claim C10: for a reply with at least one digit, the parsed minutes
value is the base-10 number formed by the digit characters in order of
appearance — `1 hour 30` parses to 130, not 1 and not 30. -/
theorem reminderDigitConcatenation :
    (∀ s : String, extractDigits s ≠ [] →
        pyParseMinutes s =
          some (Nat.ofDigits 10 (((extractDigits s).map (fun c => c.toNat - 48)).reverse)))
  ∧ pyParseMinutes "1 hour 30" = some 130
  ∧ pyParseMinutes "1 hour 30" ≠ some 1
  ∧ pyParseMinutes "1 hour 30" ≠ some 30 := by
  refine ⟨?_, by decide, by decide, by decide⟩
  intro s h
  cases hds : extractDigits s with
  | nil => exact absurd hds h
  | cons c t =>
      simp only [pyParseMinutes, hds, List.isEmpty_cons, if_false, Bool.false_eq_true,
        ite_false, digitsToNat]
      rw [foldl_digits_ofDigits (c :: t) 0]
      simp

/-- Claim C10, witness at the spec's example reply. -/
theorem reminderDigitConcatenation_witness :
    extractDigits "1 hour 30" ≠ []
  ∧ pyParseMinutes "1 hour 30" =
      some (Nat.ofDigits 10 (((extractDigits "1 hour 30").map (fun c => c.toNat - 48)).reverse)) :=
  ⟨by decide, reminderDigitConcatenation.1 "1 hour 30" (by decide)⟩

/-- Claim C4: minutes are parsed by extracting the digit characters of the
listened reply and converting them (non-digits discarded, not an error);
when the reply has no digit at all the dispatcher reports it could not
understand the time and no reminder is scheduled. -/
theorem reminderParseFailureNoTimer :
    (∀ s : String, extractDigits s ≠ [] →
        pyParseMinutes s = some (digitsToNat (extractDigits s)))
  ∧ (∀ (st : AsstState) (u tRaw mRaw : String) (rest : List String),
      EXIT_WORDS.any (fun w => strContains u w) = false →
      List.lookup u st.customCommands = none →
      GREETINGS.any (fun g => strContains u g) = false →
      strContains u "time" = false →
      strContains u "date" = false →
      strContains u "weather" = false →
      (strContains u "send email" || strContains u "email") = false →
      (strContains u "remind me" || strContains u "set reminder") = true →
      st.listens = tRaw :: mRaw :: rest →
      extractDigits (pyNormalize mRaw) = [] →
      process_command u st =
        ([Effect.spoke "What should I remind you about?",
          Effect.spoke "In how many minutes should I remind you?",
          Effect.spoke "I couldn\x27t understand the time. Reminder not set."],
         { st with listens := rest })
      ∧ ∀ t m, Effect.reminderScheduled t m ∉ (process_command u st).1) := by
  constructor
  · intro s h
    cases hds : extractDigits s with
    | nil => exact absurd hds h
    | cons c t => simp [pyParseMinutes, hds]
  · intro st u tRaw mRaw rest hexit hcust hgreet htime hdate hweather hemail hrem hl hdig
    have hne : u ≠ "" := by
      intro h0; rw [h0] at hrem; exact absurd hrem (by decide)
    have hbranch : process_command u st = reminderBranch st := by
      simp only [process_command, hne, hexit, hcust, hgreet, htime, hdate, hweather, hemail,
        hrem, if_false, if_true, ite_false, ite_true, Bool.false_eq_true]
    have hparse : pyParseMinutes (pyNormalize mRaw) = none := by
      simp [pyParseMinutes, hdig]
    have heq : process_command u st =
        ([Effect.spoke "What should I remind you about?",
          Effect.spoke "In how many minutes should I remind you?",
          Effect.spoke "I couldn\x27t understand the time. Reminder not set."],
         { st with listens := rest }) := by
      rw [hbranch]
      simp [reminderBranch, listen_vosk, hl, hparse]
    refine ⟨heq, ?_⟩
    intro t m
    rw [heq]
    simp

/-- A reminder interaction whose minutes reply has no digits at all. -/
def reminderNoDigitSt : AsstState :=
  { customCommands := [], savedFile := none,
    listens := ["wash the clothes", "no idea"], typed := [] }

/-- Claim C4, witness: digits survive surrounding words, and a digit-free
reply cancels the reminder. -/
theorem reminderParseFailureNoTimer_witness :
    pyParseMinutes "2 hours" = some (digitsToNat (extractDigits "2 hours"))
  ∧ process_command "remind me" reminderNoDigitSt =
      ([Effect.spoke "What should I remind you about?",
        Effect.spoke "In how many minutes should I remind you?",
        Effect.spoke "I couldn\x27t understand the time. Reminder not set."],
       { reminderNoDigitSt with listens := [] }) :=
  ⟨reminderParseFailureNoTimer.1 "2 hours" (by decide),
   (reminderParseFailureNoTimer.2 reminderNoDigitSt "remind me" "wash the clothes" "no idea" []
      (by decide) (by decide) (by decide) (by decide) (by decide) (by decide) (by decide)
      (by decide) rfl (by decide)).1⟩

/-- Claim C7: with `" in "` present, the city sent to the weather lookup is
exactly the trimmed text after the first separator; with it absent, the
dispatcher prompts via a secondary listen and an empty listen falls back
to the configured default city. -/
theorem weatherCityExtraction :
    (∀ (st : AsstState) (u : String) (pre post : List Char),
      EXIT_WORDS.any (fun w => strContains u w) = false →
      List.lookup u st.customCommands = none →
      GREETINGS.any (fun g => strContains u g) = false →
      strContains u "time" = false →
      strContains u "date" = false →
      strContains u "weather" = true →
      splitFirst u.data (" in ".data) = some (pre, post) →
      process_command u st = ([Effect.weatherLookup (pyStrip (String.mk post))], st))
  ∧ (∀ (st : AsstState) (u : String) (rest : List String),
      EXIT_WORDS.any (fun w => strContains u w) = false →
      List.lookup u st.customCommands = none →
      GREETINGS.any (fun g => strContains u g) = false →
      strContains u "time" = false →
      strContains u "date" = false →
      strContains u "weather" = true →
      splitFirst u.data (" in ".data) = none →
      listen_vosk st.listens = ("", rest) →
      process_command u st =
        ([Effect.spoke "Which city do you want the weather for?",
          Effect.weatherLookup DEFAULT_CITY],
         { st with listens := rest })) := by
  constructor
  · intro st u pre post hexit hcust hgreet htime hdate hweather hsplit
    have hne : u ≠ "" := by
      intro h0; rw [h0] at hweather; exact absurd hweather (by decide)
    have hbranch : process_command u st = weatherBranch u st := by
      simp only [process_command, hne, hexit, hcust, hgreet, htime, hdate, hweather,
        if_false, if_true, ite_false, ite_true, Bool.false_eq_true]
    rw [hbranch]
    simp [weatherBranch, hsplit]
  · intro st u rest hexit hcust hgreet htime hdate hweather hsplit hlisten
    have hne : u ≠ "" := by
      intro h0; rw [h0] at hweather; exact absurd hweather (by decide)
    have hbranch : process_command u st = weatherBranch u st := by
      simp only [process_command, hne, hexit, hcust, hgreet, htime, hdate, hweather,
        if_false, if_true, ite_false, ite_true, Bool.false_eq_true]
    rw [hbranch]
    simp [weatherBranch, hsplit, hlisten]

/-- A state with one pending, effectively silent, listen reply. -/
def silentListenSt : AsstState :=
  { customCommands := [], savedFile := none, listens := ["   "], typed := [] }

/-- Claim C7, witness: `weather in Paris` sends exactly `Paris`, and a
weather request without a city falls back to the default after a silent
listen. -/
theorem weatherCityExtraction_witness :
    process_command "weather in Paris" emptySt =
      ([Effect.weatherLookup (pyStrip (String.mk ("Paris".data)))], emptySt)
  ∧ process_command "weather" silentListenSt =
      ([Effect.spoke "Which city do you want the weather for?",
        Effect.weatherLookup DEFAULT_CITY],
       { silentListenSt with listens := [] }) :=
  ⟨weatherCityExtraction.1 emptySt "weather in Paris" ("weather".data) ("Paris".data)
      (by decide) (by decide) (by decide) (by decide) (by decide) (by decide) (by decide),
   weatherCityExtraction.2 silentListenSt "weather" []
      (by decide) (by decide) (by decide) (by decide) (by decide) (by decide) (by decide)
      (by decide)⟩

/-- Claim C9: in the add-command intent an empty trigger listen or an empty
response listen cancels the operation with the matching message, leaving
both the in-memory mapping and the saved file untouched; only when both
are non-empty is the pair upserted, saved, and confirmed. -/
theorem addCommandCancellation :
    (∀ (st : AsstState) (u tRaw : String) (rest : List String),
      EXIT_WORDS.any (fun w => strContains u w) = false →
      List.lookup u st.customCommands = none →
      GREETINGS.any (fun g => strContains u g) = false →
      strContains u "time" = false →
      strContains u "date" = false →
      strContains u "weather" = false →
      (strContains u "send email" || strContains u "email") = false →
      (strContains u "remind me" || strContains u "set reminder") = false →
      (isPrefixL ("who is".data) u.data || isPrefixL ("what is".data) u.data
        || isPrefixL ("tell me about".data) u.data) = false →
      (strContains u "add command" || strContains u "create command") = true →
      st.listens = tRaw :: rest →
      pyNormalize tRaw = "" →
      process_command u st =
        ([Effect.spoke "What phrase should trigger the command?",
          Effect.spoke "No trigger received. Cancelled."],
         { st with listens := rest }))
  ∧ (∀ (st : AsstState) (u tRaw rRaw : String) (rest : List String),
      EXIT_WORDS.any (fun w => strContains u w) = false →
      List.lookup u st.customCommands = none →
      GREETINGS.any (fun g => strContains u g) = false →
      strContains u "time" = false →
      strContains u "date" = false →
      strContains u "weather" = false →
      (strContains u "send email" || strContains u "email") = false →
      (strContains u "remind me" || strContains u "set reminder") = false →
      (isPrefixL ("who is".data) u.data || isPrefixL ("what is".data) u.data
        || isPrefixL ("tell me about".data) u.data) = false →
      (strContains u "add command" || strContains u "create command") = true →
      st.listens = tRaw :: rRaw :: rest →
      pyNormalize tRaw ≠ "" →
      pyNormalize rRaw = "" →
      process_command u st =
        ([Effect.spoke "What phrase should trigger the command?",
          Effect.spoke "What should I respond when you say that?",
          Effect.spoke "No response provided. Cancelled."],
         { st with listens := rest }))
  ∧ (∀ (st : AsstState) (u tRaw rRaw : String) (rest : List String),
      EXIT_WORDS.any (fun w => strContains u w) = false →
      List.lookup u st.customCommands = none →
      GREETINGS.any (fun g => strContains u g) = false →
      strContains u "time" = false →
      strContains u "date" = false →
      strContains u "weather" = false →
      (strContains u "send email" || strContains u "email") = false →
      (strContains u "remind me" || strContains u "set reminder") = false →
      (isPrefixL ("who is".data) u.data || isPrefixL ("what is".data) u.data
        || isPrefixL ("tell me about".data) u.data) = false →
      (strContains u "add command" || strContains u "create command") = true →
      st.listens = tRaw :: rRaw :: rest →
      pyNormalize tRaw ≠ "" →
      pyNormalize rRaw ≠ "" →
      process_command u st =
        ([Effect.spoke "What phrase should trigger the command?",
          Effect.spoke "What should I respond when you say that?",
          Effect.spoke ("Custom command added for trigger: " ++ pyNormalize tRaw)],
         { st with
            customCommands := dictInsert st.customCommands (pyNormalize tRaw) (pyNormalize rRaw),
            savedFile := some (dictInsert st.customCommands (pyNormalize tRaw) (pyNormalize rRaw)),
            listens := rest })) := by
  refine ⟨?_, ?_, ?_⟩
  · intro st u tRaw rest hexit hcust hgreet htime hdate hweather hemail hrem hwiki hadd hl hT
    have hne : u ≠ "" := by
      intro h0; rw [h0] at hadd; exact absurd hadd (by decide)
    have hbranch : process_command u st = addCommandBranch st := by
      simp only [process_command, hne, hexit, hcust, hgreet, htime, hdate, hweather, hemail,
        hrem, hwiki, hadd, if_false, if_true, ite_false, ite_true, Bool.false_eq_true]
    rw [hbranch]
    simp [addCommandBranch, listen_vosk, hl, hT]
  · intro st u tRaw rRaw rest hexit hcust hgreet htime hdate hweather hemail hrem hwiki hadd hl hT hR
    have hne : u ≠ "" := by
      intro h0; rw [h0] at hadd; exact absurd hadd (by decide)
    have hbranch : process_command u st = addCommandBranch st := by
      simp only [process_command, hne, hexit, hcust, hgreet, htime, hdate, hweather, hemail,
        hrem, hwiki, hadd, if_false, if_true, ite_false, ite_true, Bool.false_eq_true]
    rw [hbranch]
    simp [addCommandBranch, listen_vosk, hl, hT, hR]
  · intro st u tRaw rRaw rest hexit hcust hgreet htime hdate hweather hemail hrem hwiki hadd hl hT hR
    have hne : u ≠ "" := by
      intro h0; rw [h0] at hadd; exact absurd hadd (by decide)
    have hbranch : process_command u st = addCommandBranch st := by
      simp only [process_command, hne, hexit, hcust, hgreet, htime, hdate, hweather, hemail,
        hrem, hwiki, hadd, if_false, if_true, ite_false, ite_true, Bool.false_eq_true]
    rw [hbranch]
    simp [addCommandBranch, listen_vosk, hl, hT, hR]

/-- A populated store about to receive an empty trigger listen. -/
def addEmptyTrigSt : AsstState :=
  { customCommands := [("greet", "hi there")], savedFile := some [("greet", "hi there")],
    listens := ["   "], typed := [] }

/-- A populated store about to receive an empty response listen. -/
def addEmptyRespSt : AsstState :=
  { customCommands := [("greet", "hi there")], savedFile := some [("greet", "hi there")],
    listens := ["good morning", "   "], typed := [] }

/-- An empty store about to receive a complete trigger/response pair. -/
def addBothSt : AsstState :=
  { customCommands := [], savedFile := none, listens := ["marco", "polo"], typed := [] }

/-- Claim C9, witness: the spec's cancellation scenario (empty response),
the empty-trigger cancellation, and a completed upsert. -/
theorem addCommandCancellation_witness :
    process_command "add command" addEmptyTrigSt =
      ([Effect.spoke "What phrase should trigger the command?",
        Effect.spoke "No trigger received. Cancelled."],
       { addEmptyTrigSt with listens := [] })
  ∧ process_command "add command" addEmptyRespSt =
      ([Effect.spoke "What phrase should trigger the command?",
        Effect.spoke "What should I respond when you say that?",
        Effect.spoke "No response provided. Cancelled."],
       { addEmptyRespSt with listens := [] })
  ∧ process_command "add command" addBothSt =
      ([Effect.spoke "What phrase should trigger the command?",
        Effect.spoke "What should I respond when you say that?",
        Effect.spoke ("Custom command added for trigger: " ++ pyNormalize "marco")],
       { addBothSt with
          customCommands := dictInsert addBothSt.customCommands (pyNormalize "marco") (pyNormalize "polo"),
          savedFile := some (dictInsert addBothSt.customCommands (pyNormalize "marco") (pyNormalize "polo")),
          listens := [] }) :=
  ⟨addCommandCancellation.1 addEmptyTrigSt "add command" "   " []
      (by decide) (by decide) (by decide) (by decide) (by decide) (by decide) (by decide)
      (by decide) (by decide) (by decide) rfl (by decide),
   (addCommandCancellation.2.1) addEmptyRespSt "add command" "good morning" "   " []
      (by decide) (by decide) (by decide) (by decide) (by decide) (by decide) (by decide)
      (by decide) (by decide) (by decide) rfl (by decide) (by decide),
   (addCommandCancellation.2.2) addBothSt "add command" "marco" "polo" []
      (by decide) (by decide) (by decide) (by decide) (by decide) (by decide) (by decide)
      (by decide) (by decide) (by decide) rfl (by decide) (by decide)⟩

end VoiceAssistant
